import Mathlib

/-!
Verification development for the ride-hailing dispatch backend.

The Python sources under `app/` are shallowly embedded below:
pure functions (`app/services/pricing.py`, `app/services/payment.py`)
become Lean functions on `ℚ`; the stateful routers and the matching
engine (`app/routers/*.py`, `app/services/matching.py`) become explicit
state-passing functions over a `DB` record modelling the durable rows
(Postgres) together with the cache keyspace (Redis: surge demand
counters, geo sets, driver locks, tier cache, idempotency entries).

Python floats are modelled by rational numbers.  Python's built-in
`round(x, n)` rounds half to even; `Decimal.quantize(..., ROUND_HALF_UP)`
rounds ties away from zero (half up for the non-negative amounts that
occur here).  Both are given exact counterparts on `ℚ`.

The haversine distance (trigonometric, evaluated on floats in the
source) is not computable on `ℚ`; every operation that consumes it
takes the computed distance as an explicit argument, and the theorems
quantify over that value.
-/

namespace RideHailing

/-! ## Association lists (model of keyed rows / redis keys) -/

def alookup {κ α : Type} [DecidableEq κ] (k : κ) : List (κ × α) → Option α
  | [] => none
  | (k', v) :: rest => if k = k' then some v else alookup k rest

def aupdate {κ α : Type} [DecidableEq κ] (k : κ) (f : α → α) : List (κ × α) → List (κ × α)
  | [] => []
  | (k', v) :: rest => if k = k' then (k', f v) :: rest else (k', v) :: aupdate k f rest

def adelete {κ α : Type} [DecidableEq κ] (k : κ) : List (κ × α) → List (κ × α)
  | [] => []
  | (k', v) :: rest => if k = k' then adelete k rest else (k', v) :: adelete k rest

/-! ## Rounding

`pyRound2` is Python's `round(x, 2)` (half to even), exact on `ℚ`;
`pyRound3` likewise for `round(x, 3)`.  `quantHalfUp2` is
`Decimal.quantize(Decimal("0.01"), rounding=ROUND_HALF_UP)` for
non-negative values, using Mathlib's `round` (ties toward `+∞`). -/

def halfEvenInt (x : ℚ) : ℤ :=
  if Int.fract x < 1/2 then ⌊x⌋
  else if Int.fract x = 1/2 then (if Even ⌊x⌋ then ⌊x⌋ else ⌊x⌋ + 1)
  else ⌊x⌋ + 1

def pyRound2 (x : ℚ) : ℚ := (halfEvenInt (x * 100) : ℚ) / 100

def pyRound3 (x : ℚ) : ℚ := (halfEvenInt (x * 1000) : ℚ) / 1000

def quantHalfUp2 (x : ℚ) : ℚ := (round (x * 100) : ℚ) / 100

/-! ## Pricing service (`app/services/pricing.py`) -/

/-- Tier base fees (INR): `BASE_FEE.get(tier, 30)` of the source. -/
def BASE_FEE (tier : String) : ℚ :=
  if tier = "standard" then 30
  else if tier = "premium" then 60
  else if tier = "xl" then 80
  else 30

/-- Tier per-km rates: `RATE_PER_KM.get(tier, 10)` of the source. -/
def RATE_PER_KM (tier : String) : ℚ :=
  if tier = "standard" then 10
  else if tier = "premium" then 15
  else if tier = "xl" then 20
  else 10

/-- Default of the `max_surge_multiplier` setting (`app/config.py`). -/
def MAX_SURGE_MULTIPLIER : ℚ := 5

/-- `compute_surge` of the source, with the redis reads
(`GET surge:demand:{tier}`, `ZCARD drivers:geo:{tier}`) passed in as the
natural numbers `demand` and `supply`. -/
def compute_surge (maxSurge : ℚ) (demand supply : ℕ) : ℚ :=
  let s : ℕ := max supply 1
  let q : ℚ := (demand : ℚ) / (s : ℚ)
  let multiplier : ℚ :=
    if q < 1/2 then 1
    else if q < 1 then 3/2
    else if q < 2 then 2
    else if q < 3 then 3
    else min q maxSurge
  pyRound2 multiplier

/-- `to_dec` of the source:
`Decimal(str(round(v, 2))).quantize(Decimal("0.01"), rounding=ROUND_HALF_UP)`.
`round(v, 2)` rounds half to even; `str` of the result has at most two
decimals, so the half-up quantize re-reads the same value. -/
def to_dec (v : ℚ) : ℚ := quantHalfUp2 (pyRound2 v)

/-- `calculate_fare(tier, distance_km, surge_multiplier)` of the source:
`(base_fare, surge_fare, total_fare)`. -/
def calculate_fare (tier : String) (distance_km surge_multiplier : ℚ) : ℚ × ℚ × ℚ :=
  let base := BASE_FEE tier + RATE_PER_KM tier * distance_km
  let surge_component := base * (surge_multiplier - 1)
  let total := base + surge_component
  (to_dec base, to_dec surge_component, to_dec total)

/-- `estimate_fare_range` of the source: the `(min, max)` pair of the
response dict (the `currency` entry is the constant `"INR"`). -/
def estimate_fare_range (tier : String) (distance_km surge_multiplier : ℚ) : ℚ × ℚ :=
  let total := (calculate_fare tier distance_km surge_multiplier).2.2
  (pyRound2 (total * (9/10)), pyRound2 (total * (11/10)))

/-- `increment_demand`: `INCR surge:demand:{tier}` (creates the key at 1
when absent; the 120 s expiry is a real-time effect outside the model). -/
def increment_demand (dm : List (String × ℕ)) (tier : String) : List (String × ℕ) :=
  match alookup tier dm with
  | some _ => aupdate tier (fun n => n + 1) dm
  | none => (tier, 1) :: dm

/-- `decrement_demand` of the source: decrements only when the counter
exists and is positive.  (No call site exists in the repository.) -/
def decrement_demand (dm : List (String × ℕ)) (tier : String) : List (String × ℕ) :=
  match alookup tier dm with
  | some n => if 0 < n then aupdate tier (fun m => m - 1) dm else dm
  | none => dm

/-! ## Payment adapter (`app/services/payment.py`)

`_call_psp` raises `PSPError` iff the amount is non-positive, and
otherwise returns a fresh provider reference; the reference drawn on
attempt `n` is modelled by `refGen n`.  `charge` loops over attempts
1, 2, 3, sleeping `2 ** attempt` seconds after each failed non-final
attempt; the sleeps performed are recorded in `waits`. -/

structure ChargeResult where
  psp_ref : Option String
  status : String
  attempts : ℕ
  waits : List ℕ
deriving DecidableEq

/-- `_call_psp` of the source: `none` models a raised `PSPError`. -/
def call_psp (amount : ℚ) (refGen : ℕ → String) (attempt : ℕ) : Option String :=
  if amount ≤ 0 then none else some ("PSP-" ++ refGen attempt)

def chargeGo (amount : ℚ) (refGen : ℕ → String) :
    ℕ → ℕ → List ℕ → ChargeResult
  | 0, attempt, ws => ⟨none, "FAILED", attempt - 1, ws⟩
  | fuel + 1, attempt, ws =>
    match call_psp amount refGen attempt with
    | some ref => ⟨some ref, "SUCCESS", attempt, ws⟩
    | none =>
      if attempt = 3 then ⟨none, "FAILED", attempt, ws⟩
      else chargeGo amount refGen fuel (attempt + 1) (ws ++ [2 ^ attempt])

/-- `charge` of the source (`for attempt in range(1, 4)` with 3 units of
fuel; the post-loop `return` is the fuel-0 case, unreachable). -/
def charge (amount : ℚ) (refGen : ℕ → String) : ChargeResult :=
  chargeGo amount refGen 3 1 []

/-! ## Claim-side (spec-worded) definitions -/

/-- The piecewise multiplier table exactly as the spec words it (§4.3):
compared against `compute_surge` in the C4 theorem. -/
def surgeSpecTable (maxSurge q : ℚ) : ℚ :=
  if q < 1/2 then 1
  else if 1/2 ≤ q ∧ q < 1 then 3/2
  else if 1 ≤ q ∧ q < 2 then 2
  else if 2 ≤ q ∧ q < 3 then 3
  else min q maxSurge

/-- Rounding half-up to two decimals, as the spec words it ("rounded
half-up"): ties go up.  Compared against the source's rounding in C5. -/
def roundHalfUp2 (x : ℚ) : ℚ := (round (x * 100) : ℚ) / 100

/-! ## Durable rows and cache state

One record type per table of `app/models/`; coordinate columns are
omitted (they feed only the haversine distance, which operations take
as an argument).  `DB` bundles the four tables with the redis keyspace:
`demand` (`surge:demand:{tier}`), `geo` (`drivers:geo:{tier}`
membership), `tierCache` (`driver:{id}:tier`), `locks`
(`driver:{id}:lock` ↦ ride id) and `idem`
(`idempotency:{key}` ↦ stored `{status_code, body}`).  The 60 s
`ride:{id}:status` read cache and the TTLs are real-time effects with
no bearing on the claims and are not modelled. -/

structure DriverRec where
  status : String
  tier : String
deriving DecidableEq

structure RideRec where
  rider_id : ℕ
  tier : String
  status : String
  driver_id : Option ℕ
  surge_multiplier : ℚ
  payment_method : String
deriving DecidableEq

structure TripRec where
  ride_id : ℕ
  driver_id : ℕ
  rider_id : ℕ
  status : String
  distance_km : Option ℚ
  base_fare : Option ℚ
  surge_fare : Option ℚ
  total_fare : Option ℚ
deriving DecidableEq

structure PaymentRec where
  trip_id : ℕ
  rider_id : ℕ
  amount : ℚ
  currency : String
  status : String
  psp_ref : Option String
  idempotency_key : Option String
deriving DecidableEq

/-- Response body as stored/served by the routers (the JSON dict,
modelled structurally). -/
inductive Body where
  | rideBody (id : ℕ) (status : String) (surge : ℚ) (fmin fmax : ℚ) (currency : String)
  | payBody (payment_id : ℕ) (status : String) (psp_ref : Option String)
      (amount : ℚ) (currency : String)
deriving DecidableEq

/-- An HTTP response: status code, body, and whether the
`X-Idempotency-Replay: true` header is set. -/
structure Resp where
  status_code : ℕ
  body : Body
  replay : Bool
deriving DecidableEq

structure DB where
  drivers : List (ℕ × DriverRec)
  rides : List (ℕ × RideRec)
  trips : List (ℕ × TripRec)
  payments : List (ℕ × PaymentRec)
  demand : List (String × ℕ)
  geo : List (String × List ℕ)
  tierCache : List (ℕ × String)
  locks : List (ℕ × ℕ)
  idem : List (String × (ℕ × Body))
deriving DecidableEq

/-- `ZADD`-style membership insert into `drivers:geo:{tier}`. -/
def geoInsert (g : List (String × List ℕ)) (tier : String) (did : ℕ) :
    List (String × List ℕ) :=
  match alookup tier g with
  | some _ => aupdate tier (fun l => if did ∈ l then l else did :: l) g
  | none => (tier, [did]) :: g

def geoMember (db : DB) (tier : String) (did : ℕ) : Prop :=
  did ∈ ((alookup tier db.geo).getD [])

instance (db : DB) (tier : String) (did : ℕ) : Decidable (geoMember db tier did) :=
  inferInstanceAs (Decidable (did ∈ _))

def demandOf (db : DB) (tier : String) : ℕ := (alookup tier db.demand).getD 0

def supplyOf (db : DB) (tier : String) : ℕ := ((alookup tier db.geo).getD []).length

def rideStatus (db : DB) (rid : ℕ) : Option String :=
  (alookup rid db.rides).map RideRec.status

def driverStatus (db : DB) (did : ℕ) : Option String :=
  (alookup did db.drivers).map DriverRec.status

/-- The idempotency lookup performed at the top of the ride and payment
routers: `check_idempotency` returns the stored `{status_code, body}`
only when a key is carried and present in the store. -/
def idemHit (db : DB) (key : Option String) : Option (ℕ × Body) :=
  match key with
  | some k => alookup k db.idem
  | none => none

/-! ## Drivers router (`app/routers/drivers.py`) -/

/-- `PATCH /v1/drivers/{id}/status` — `update_driver_status`: validates
the new status against `{offline, available}` (400), 404 when the
driver row is missing, otherwise writes the status.  The geo index is
not touched. -/
def update_driver_status (db : DB) (did : ℕ) (new_status : String) :
    DB × Except ℕ (ℕ × String) :=
  if new_status = "offline" ∨ new_status = "available" then
    match alookup did db.drivers with
    | none => (db, .error 404)
    | some _ =>
      ({ db with drivers := aupdate did (fun x => { x with status := new_status }) db.drivers },
       .ok (did, new_status))
  else (db, .error 400)

/-- `POST /v1/drivers/{id}/location` — `update_location` fast path: on
a tier-cache hit the driver is `GEOADD`ed unconditionally; on a miss
the driver row is read (404 when absent), the tier cached, and the
driver indexed only when currently available.  The slow-path flush of
`(lat, lng)` to the driver row touches no field modelled here. -/
def update_location (db : DB) (did : ℕ) : DB × Except ℕ Unit :=
  match alookup did db.tierCache with
  | some tier => ({ db with geo := geoInsert db.geo tier did }, .ok ())
  | none =>
    match alookup did db.drivers with
    | none => (db, .error 404)
    | some drv =>
      let db1 := { db with tierCache := (did, drv.tier) :: db.tierCache }
      if drv.status = "available" then
        ({ db1 with geo := geoInsert db1.geo drv.tier did }, .ok ())
      else (db1, .ok ())

/-- first trip row with the given `ride_id` (`select(Trip).where(Trip.ride_id == …)`). -/
def findTripByRide : List (ℕ × TripRec) → ℕ → Option (ℕ × TripRec)
  | [], _ => none
  | (k, v) :: rest, rid => if v.ride_id = rid then some (k, v) else findTripByRide rest rid

/-- `POST /v1/drivers/{id}/accept` — `accept_ride`: requires the ride
row with `driver_id = did` and status MATCHED (else 409); a missing
trip row aborts with 500 before commit (rollback, no change);
otherwise the ride moves to DRIVER_EN_ROUTE. -/
def accept_ride (db : DB) (did rid : ℕ) : DB × Except ℕ (ℕ × String) :=
  match alookup rid db.rides with
  | none => (db, .error 409)
  | some r =>
    if r.driver_id = some did ∧ r.status = "MATCHED" then
      match findTripByRide db.trips rid with
      | none => (db, .error 500)
      | some (tid, _) =>
        ({ db with rides := aupdate rid (fun x => { x with status := "DRIVER_EN_ROUTE" }) db.rides },
         .ok (tid, "DRIVER_EN_ROUTE"))
    else (db, .error 409)

/-! ## Matching engine (`app/services/matching.py`) -/

/-- `_cancel_ride`: `UPDATE rides SET status = CANCELLED WHERE id = rid`
— no status predicate. -/
def cancel_ride (db : DB) (rid : ℕ) : DB :=
  { db with rides := aupdate rid (fun x => { x with status := "CANCELLED" }) db.rides }

/-- `_assign_driver`: locks the driver row with predicate
status=available (skip-locked) and the ride row with predicate
status=REQUESTED; when both hold, driver → on_trip, ride → MATCHED with
`driver_id`, and an ACTIVE trip row is inserted; otherwise nothing is
written and False is returned. -/
def assign_driver (db : DB) (rid did tid : ℕ) : DB × Bool :=
  match alookup did db.drivers with
  | none => (db, false)
  | some drv =>
    if drv.status = "available" then
      match alookup rid db.rides with
      | none => (db, false)
      | some r =>
        if r.status = "REQUESTED" then
          ({ db with
              drivers := aupdate did (fun x => { x with status := "on_trip" }) db.drivers,
              rides := aupdate rid
                (fun x => { x with status := "MATCHED", driver_id := some did }) db.rides,
              trips := (tid, ⟨rid, did, r.rider_id, "ACTIVE", none, none, none, none⟩) :: db.trips },
           true)
        else (db, false)
    else (db, false)

/-- The candidate loop of `run_matching`: `SET NX` the driver lock
(skip when held), re-read the driver row (skip and release the lock
unless available), then `_assign_driver`.  A falsy assignment result
continues with the next candidate — without releasing the lock (the
source deletes it only on an exception).  Exhaustion cancels the
ride. -/
def matchLoop (rid tid : ℕ) : List ℕ → DB → DB × Bool
  | [], db => (cancel_ride db rid, false)
  | did :: rest, db =>
    if (alookup did db.locks).isSome then matchLoop rid tid rest db
    else
      let db1 := { db with locks := (did, rid) :: db.locks }
      match alookup did db1.drivers with
      | none => matchLoop rid tid rest { db1 with locks := adelete did db1.locks }
      | some drv =>
        if drv.status = "available" then
          let res := assign_driver db1 rid did tid
          if res.2 then (res.1, true) else matchLoop rid tid rest res.1
        else matchLoop rid tid rest { db1 with locks := adelete did db1.locks }

/-- `run_matching`: the geo search result is passed in as `candidates`
(`GEOSEARCH` with distance ordering evaluates outside the model); the
source's early cancel on an empty candidate list coincides with the
loop's exhaustion case. -/
def run_matching (db : DB) (rid : ℕ) (candidates : List ℕ) (tid : ℕ) : DB × Bool :=
  matchLoop rid tid candidates db

/-! ## Rides router (`app/routers/rides.py`) -/

/-- `POST /v1/rides` — `create_ride`: idempotency check first (a hit
replays the stored response and performs no side effect — the third
component records whether a matching task was submitted); otherwise
surge is computed from the demand counter and geo cardinality, the
estimate from the haversine distance `dist`, the REQUESTED ride row
inserted, demand incremented, the matching task fired, and the
response stored under the idempotency key when one was carried. -/
def create_ride (db : DB) (rider : ℕ) (tier pm : String) (dist : ℚ)
    (key : Option String) (newId : ℕ) : DB × Resp × Bool :=
  match idemHit db key with
  | some st => (db, ⟨st.1, st.2, true⟩, false)
  | none =>
    let surge := compute_surge MAX_SURGE_MULTIPLIER (demandOf db tier) (supplyOf db tier)
    let fr := estimate_fare_range tier dist surge
    let body := Body.rideBody newId "REQUESTED" surge fr.1 fr.2 "INR"
    let db1 := { db with rides := (newId, ⟨rider, tier, "REQUESTED", none, surge, pm⟩) :: db.rides }
    let db2 := { db1 with demand := increment_demand db1.demand tier }
    let db3 :=
      match key with
      | some k => { db2 with idem := (k, (201, body)) :: db2.idem }
      | none => db2
    (db3, ⟨201, body, false⟩, true)

/-! ## Trips router (`app/routers/trips.py`) -/

/-- `POST /v1/trips/{id}/end` — `end_trip`: 404 when the trip row is
missing, 409 unless the trip is ACTIVE or PAUSED, 500 when the
associated ride is missing; otherwise fare is computed from the
haversine distance `dist`, the trip completed with its metrics, the
ride set to PAYMENT_PENDING (the ride's own status is never checked),
the driver freed, and a PENDING payment inserted with the total. -/
def end_trip (db : DB) (tid : ℕ) (dist : ℚ) (pid : ℕ) :
    DB × Except ℕ (ℚ × ℚ × ℚ × String) :=
  match alookup tid db.trips with
  | none => (db, .error 404)
  | some t =>
    if t.status = "ACTIVE" ∨ t.status = "PAUSED" then
      match alookup t.ride_id db.rides with
      | none => (db, .error 500)
      | some r =>
        let f := calculate_fare r.tier dist r.surge_multiplier
        let db1 := { db with
          trips := aupdate tid (fun x => { x with
            status := "COMPLETED", distance_km := some (pyRound3 dist),
            base_fare := some f.1, surge_fare := some f.2.1,
            total_fare := some f.2.2 }) db.trips,
          rides := aupdate t.ride_id
            (fun x => { x with status := "PAYMENT_PENDING" }) db.rides,
          drivers := aupdate t.driver_id
            (fun x => { x with status := "available" }) db.drivers,
          payments := (pid, ⟨tid, t.rider_id, f.2.2, "INR", "PENDING", none, none⟩)
            :: db.payments }
        (db1, .ok (f.1, f.2.1, f.2.2, "PAYMENT_PENDING"))
    else (db, .error 409)

/-! ## Payments router (`app/routers/payments.py`) -/

/-- first payment row with the given `trip_id`
(`select(Payment).where(Payment.trip_id == …)`). -/
def findPayment : List (ℕ × PaymentRec) → ℕ → Option (ℕ × PaymentRec)
  | [], _ => none
  | (k, v) :: rest, tid => if v.trip_id = tid then some (k, v) else findPayment rest tid

/-- `POST /v1/payments` — `create_payment`: idempotency replay first;
then trip resolution (404 / 409 unless COMPLETED), payment resolution
(404; an already-SUCCESS payment returns the prior result with no
provider call), amount validation against the server-side
`trip.total_fare` with tolerance 0.01 (400, nothing written); only
then is the provider charged (the third component carries the
`ChargeResult`, `none` meaning `charge` was never invoked), the
payment updated, the ride set COMPLETED / PAYMENT_FAILED, and the
response stored under the idempotency key when one was carried. -/
def create_payment (db : DB) (tid : ℕ) (amount : ℚ) (key : Option String)
    (refGen : ℕ → String) : DB × Except ℕ Resp × Option ChargeResult :=
  match idemHit db key with
  | some st => (db, .ok ⟨st.1, st.2, true⟩, none)
  | none =>
    match alookup tid db.trips with
    | none => (db, .error 404, none)
    | some t =>
      if t.status = "COMPLETED" then
        match findPayment db.payments tid with
        | none => (db, .error 404, none)
        | some (pid, p) =>
          if p.status = "SUCCESS" then
            (db, .ok ⟨200, Body.payBody pid p.status p.psp_ref p.amount p.currency, false⟩,
             none)
          else
            match t.total_fare with
            | none => (db, .error 500, none)
            | some tf =>
              if 1/100 < |amount - tf| then (db, .error 400, none)
              else
                let ch := charge tf refGen
                let db1 := { db with payments := aupdate pid (fun x => { x with
                  idempotency_key := key, status := ch.status,
                  psp_ref := ch.psp_ref }) db.payments }
                let db2 :=
                  match alookup t.ride_id db1.rides with
                  | some _ => { db1 with rides := aupdate t.ride_id (fun x => { x with
                      status := if ch.status = "SUCCESS" then "COMPLETED"
                                else "PAYMENT_FAILED" }) db1.rides }
                  | none => db1
                let body := Body.payBody pid ch.status ch.psp_ref p.amount p.currency
                let db3 :=
                  match key with
                  | some k => { db2 with idem := (k, (200, body)) :: db2.idem }
                  | none => db2
                (db3, .ok ⟨200, body, false⟩, some ch)
      else (db, .error 409, none)

/-- An available driver (id 4, tier standard) with nothing cached. -/
def c3db0 : DB := ⟨[(4, ⟨"available", "standard"⟩)], [], [], [], [], [], [], [], []⟩

/-- After driver 4 pings: indexed, tier cached. -/
def c3db1 : DB := (update_location c3db0 4).1

/-- After driver 4 then goes offline. -/
def c3db2 : DB := (update_driver_status c3db1 4 "offline").1

/-- A ride already MATCHED to driver 5 by a first matcher, with its
ACTIVE trip; a second candidate driver 7 is still available. -/
def c1db0 : DB :=
  ⟨[(7, ⟨"available", "standard"⟩), (5, ⟨"on_trip", "standard"⟩)],
   [(1, ⟨9, "standard", "MATCHED", some 5, 1, "card"⟩)],
   [(100, ⟨1, 5, 9, "ACTIVE", none, none, none, none⟩)],
   [], [], [], [], [], []⟩

/-! ## C2: ride state machine vs the §4.6 transition graph -/

/-- The §4.6 transition graph of the spec, claim side. -/
def specEdges : List (String × String) :=
  [("REQUESTED", "MATCHED"), ("REQUESTED", "CANCELLED"),
   ("MATCHED", "DRIVER_EN_ROUTE"), ("MATCHED", "CANCELLED"),
   ("DRIVER_EN_ROUTE", "TRIP_STARTED"), ("DRIVER_EN_ROUTE", "CANCELLED"),
   ("TRIP_STARTED", "TRIP_PAUSED"), ("TRIP_STARTED", "TRIP_ENDED"),
   ("TRIP_PAUSED", "TRIP_STARTED"),
   ("TRIP_ENDED", "PAYMENT_PENDING"),
   ("PAYMENT_PENDING", "COMPLETED"), ("PAYMENT_PENDING", "PAYMENT_FAILED"),
   ("PAYMENT_FAILED", "PAYMENT_PENDING")]

def specEdge (s t : String) : Prop := (s, t) ∈ specEdges

instance (s t : String) : Decidable (specEdge s t) :=
  inferInstanceAs (Decidable ((s, t) ∈ _))

/-- A matched ride (status MATCHED, driver 5) whose trip is already
ACTIVE — exactly the state the matcher commits. -/
def c2db0 : DB :=
  ⟨[(5, ⟨"on_trip", "standard"⟩)],
   [(1, ⟨9, "standard", "MATCHED", some 5, 1, "card"⟩)],
   [(100, ⟨1, 5, 9, "ACTIVE", none, none, none, none⟩)],
   [], [], [], [], [], []⟩

/-! ## C9: surge demand counter -/

/-- One available standard driver (id 3) in the geo set; no rides. -/
def c9db0 : DB :=
  ⟨[(3, ⟨"available", "standard"⟩)], [], [], [], [], [("standard", [3])], [], [], []⟩

/-- The state after `POST /v1/rides` creates ride 1. -/
def c9db1 : DB := (create_ride c9db0 1 "standard" "card" 10 none 1).1

/-- A completed trip 100 (total 50) with its PENDING payment 200 and
its ride 1 in PAYMENT_PENDING. -/
def c8db0 : DB :=
  ⟨[(5, ⟨"available", "standard"⟩)],
   [(1, ⟨9, "standard", "PAYMENT_PENDING", some 5, 1, "card"⟩)],
   [(100, ⟨1, 5, 9, "COMPLETED", some 2, some 50, some 0, some 50⟩)],
   [(200, ⟨100, 9, 50, "INR", "PENDING", none, none⟩)],
   [], [], [], [], []⟩

/-! ## C10: idempotency replay -/

/-- Abbreviation: the surge captured by a fresh `create_ride` on `db`. -/
def rideSurge (db : DB) (tier : String) : ℚ :=
  compute_surge MAX_SURGE_MULTIPLIER (demandOf db tier) (supplyOf db tier)

/-- Abbreviation: the 201 body served by a fresh `create_ride`. -/
def rideBodyOf (db : DB) (tier : String) (dist : ℚ) (newId : ℕ) : Body :=
  Body.rideBody newId "REQUESTED" (rideSurge db tier)
    (estimate_fare_range tier dist (rideSurge db tier)).1
    (estimate_fare_range tier dist (rideSurge db tier)).2 "INR"

/-- The idempotency store already holds key K with a 201 ride body. -/
def c10db0 : DB :=
  ⟨[], [], [], [], [], [], [], [],
   [("K", (201, Body.rideBody 1 "REQUESTED" 1 117 143 "INR"))]⟩

/-! ## Theorems -/

theorem alookup_aupdate_self {κ α : Type} [DecidableEq κ] (k : κ) (f : α → α) :
    ∀ l : List (κ × α), alookup k (aupdate k f l) = (alookup k l).map f := by
  intro l
  induction l with
  | nil => rfl
  | cons hd tl ih =>
    obtain ⟨k', v⟩ := hd
    by_cases h : k = k' <;> simp [alookup, aupdate, h, ih]

theorem alookup_aupdate_ne {κ α : Type} [DecidableEq κ] (k k' : κ) (f : α → α)
    (h : k' ≠ k) : ∀ l : List (κ × α), alookup k' (aupdate k f l) = alookup k' l := by
  intro l
  induction l with
  | nil => rfl
  | cons hd tl ih =>
    obtain ⟨k'', v⟩ := hd
    by_cases h2 : k = k''
    · subst h2
      simp [alookup, aupdate, h]
    · by_cases h3 : k' = k'' <;> simp [alookup, aupdate, h2, h3, ih]

theorem alookup_cons_self {κ α : Type} [DecidableEq κ] (k : κ) (v : α) (l : List (κ × α)) :
    alookup k ((k, v) :: l) = some v := by
  simp [alookup]

theorem halfEvenInt_le (x : ℚ) : (halfEvenInt x : ℚ) ≤ x + 1/2 := by
  unfold halfEvenInt
  have hfl : (⌊x⌋ : ℚ) ≤ x := Int.floor_le x
  have hfr : x - (⌊x⌋ : ℚ) = Int.fract x := by rw [Int.self_sub_floor]
  split_ifs with h1 h2 h3
  · linarith
  · linarith
  · push_cast; linarith
  · have h4 : (1:ℚ)/2 < Int.fract x :=
      lt_of_le_of_ne (not_lt.mp h1) (fun he => h2 he.symm)
    push_cast
    linarith

theorem le_halfEvenInt (x : ℚ) : x - 1/2 ≤ (halfEvenInt x : ℚ) := by
  unfold halfEvenInt
  have hfr : x - (⌊x⌋ : ℚ) = Int.fract x := by rw [Int.self_sub_floor]
  have hlt : Int.fract x < 1 := Int.fract_lt_one x
  split_ifs with h1 h2 h3
  · linarith
  · linarith
  · push_cast; linarith
  · push_cast; linarith

theorem halfEvenInt_le_of_le {x : ℚ} {c : ℤ} (h : x ≤ c) : halfEvenInt x ≤ c := by
  have h1 : (halfEvenInt x : ℚ) ≤ (c : ℚ) + 1/2 := le_trans (halfEvenInt_le x) (by linarith)
  have h2 : (halfEvenInt x : ℚ) < (c : ℚ) + 1 := by linarith
  have h3 : halfEvenInt x < c + 1 := by exact_mod_cast h2
  omega

theorem le_halfEvenInt_of_le {x : ℚ} {c : ℤ} (h : (c : ℚ) ≤ x) : c ≤ halfEvenInt x := by
  have h1 : (c : ℚ) - 1/2 ≤ (halfEvenInt x : ℚ) := le_trans (by linarith) (le_halfEvenInt x)
  have h2 : (c : ℚ) - 1 < (halfEvenInt x : ℚ) := by linarith
  have h3 : c - 1 < halfEvenInt x := by exact_mod_cast h2
  omega

theorem halfEvenInt_intCast (n : ℤ) : halfEvenInt (n : ℚ) = n := by
  unfold halfEvenInt
  simp [Int.fract_intCast]

theorem halfEvenInt_of_lt_half {x : ℚ} {n : ℤ} (h1 : (n : ℚ) ≤ x) (h2 : x < (n : ℚ) + 1/2) :
    halfEvenInt x = n := by
  have hf : ⌊x⌋ = n := Int.floor_eq_iff.mpr ⟨h1, by linarith⟩
  have hfr : Int.fract x = x - (n : ℚ) := by rw [Int.fract, hf]
  unfold halfEvenInt
  rw [hfr, hf, if_pos (by linarith)]

theorem halfEvenInt_of_half_lt {x : ℚ} {n : ℤ} (h1 : (n : ℚ) + 1/2 < x) (h2 : x < (n : ℚ) + 1) :
    halfEvenInt x = n + 1 := by
  have hf : ⌊x⌋ = n := Int.floor_eq_iff.mpr ⟨by linarith, by linarith⟩
  have hfr : Int.fract x = x - (n : ℚ) := by rw [Int.fract, hf]
  unfold halfEvenInt
  rw [hfr, hf, if_neg (by linarith), if_neg (by intro h; linarith)]

theorem halfEvenInt_tie (n : ℤ) :
    halfEvenInt ((n : ℚ) + 1/2) = if Even n then n else n + 1 := by
  have hf : ⌊(n : ℚ) + 1/2⌋ = n := Int.floor_eq_iff.mpr ⟨by linarith, by linarith⟩
  have hfr : Int.fract ((n : ℚ) + 1/2) = 1/2 := by rw [Int.fract, hf]; ring
  unfold halfEvenInt
  rw [hfr, hf, if_neg (by norm_num), if_pos rfl]

theorem pyRound2_le (x : ℚ) : pyRound2 x ≤ x + 1/200 := by
  unfold pyRound2
  have h := halfEvenInt_le (x * 100)
  linarith

theorem le_pyRound2 (x : ℚ) : x - 1/200 ≤ pyRound2 x := by
  unfold pyRound2
  have h := le_halfEvenInt (x * 100)
  linarith

theorem pyRound2_le_intCast {x : ℚ} {c : ℤ} (h : x ≤ c) : pyRound2 x ≤ c := by
  unfold pyRound2
  have h1 : x * 100 ≤ ((c * 100 : ℤ) : ℚ) := by push_cast; linarith
  have h2 := halfEvenInt_le_of_le h1
  have h3 : (halfEvenInt (x * 100) : ℚ) ≤ ((c * 100 : ℤ) : ℚ) := by exact_mod_cast h2
  push_cast at h3
  linarith

theorem intCast_le_pyRound2 {x : ℚ} {c : ℤ} (h : (c : ℚ) ≤ x) : (c : ℚ) ≤ pyRound2 x := by
  unfold pyRound2
  have h1 : ((c * 100 : ℤ) : ℚ) ≤ x * 100 := by push_cast; linarith
  have h2 := le_halfEvenInt_of_le h1
  have h3 : ((c * 100 : ℤ) : ℚ) ≤ (halfEvenInt (x * 100) : ℚ) := by exact_mod_cast h2
  push_cast at h3
  linarith

theorem quantHalfUp2_pyRound2 (x : ℚ) : quantHalfUp2 (pyRound2 x) = pyRound2 x := by
  unfold quantHalfUp2 pyRound2
  have h : (halfEvenInt (x * 100) : ℚ) / 100 * 100 = (halfEvenInt (x * 100) : ℚ) := by
    field_simp
  rw [h, round_intCast]

theorem pyRound2_eq_of_int {x : ℚ} {n : ℤ} (h : x * 100 = (n : ℚ)) :
    pyRound2 x = (n : ℚ) / 100 := by
  rw [pyRound2, h, halfEvenInt_intCast]

theorem pyRound2_eq_of_tie_even {x : ℚ} {n : ℤ} (h : x * 100 = (n : ℚ) + 1/2)
    (he : Even n) : pyRound2 x = (n : ℚ) / 100 := by
  rw [pyRound2, h, halfEvenInt_tie, if_pos he]

theorem pyRound2_eq_of_lt {x : ℚ} {n : ℤ} (h1 : (n : ℚ) ≤ x * 100)
    (h2 : x * 100 < (n : ℚ) + 1/2) : pyRound2 x = (n : ℚ) / 100 := by
  rw [pyRound2, halfEvenInt_of_lt_half h1 h2]

theorem pyRound2_eq_of_gt {x : ℚ} {n : ℤ} (h1 : (n : ℚ) + 1/2 < x * 100)
    (h2 : x * 100 < (n : ℚ) + 1) : pyRound2 x = ((n : ℚ) + 1) / 100 := by
  rw [pyRound2, halfEvenInt_of_half_lt h1 h2]
  push_cast
  ring

theorem to_dec_eq_pyRound2 (v : ℚ) : to_dec v = pyRound2 v :=
  quantHalfUp2_pyRound2 v

theorem BASE_FEE_ge_30 (tier : String) : 30 ≤ BASE_FEE tier := by
  unfold BASE_FEE
  split_ifs <;> norm_num

theorem RATE_PER_KM_nonneg (tier : String) : 0 ≤ RATE_PER_KM tier := by
  unfold RATE_PER_KM
  split_ifs <;> norm_num

theorem pyRound2_BASE_FEE (tier : String) : pyRound2 (BASE_FEE tier) = BASE_FEE tier := by
  unfold BASE_FEE
  split_ifs
  · rw [pyRound2_eq_of_int (n := 3000) (by norm_num)]; norm_num
  · rw [pyRound2_eq_of_int (n := 6000) (by norm_num)]; norm_num
  · rw [pyRound2_eq_of_int (n := 8000) (by norm_num)]; norm_num
  · rw [pyRound2_eq_of_int (n := 3000) (by norm_num)]; norm_num

theorem surgeSpecTable_eq_code (maxSurge q : ℚ) :
    surgeSpecTable maxSurge q =
      (if q < 1/2 then 1
       else if q < 1 then 3/2
       else if q < 2 then 2
       else if q < 3 then 3
       else min q maxSurge) := by
  unfold surgeSpecTable
  by_cases h1 : q < 1/2
  · rw [if_pos h1, if_pos h1]
  · have h1' : 1/2 ≤ q := not_lt.mp h1
    rw [if_neg h1, if_neg h1]
    by_cases h2 : q < 1
    · rw [if_pos ⟨h1', h2⟩, if_pos h2]
    · have h2' : 1 ≤ q := not_lt.mp h2
      rw [if_neg (fun hc => h2 hc.2), if_neg h2]
      by_cases h3 : q < 2
      · rw [if_pos ⟨h2', h3⟩, if_pos h3]
      · have h3' : 2 ≤ q := not_lt.mp h3
        rw [if_neg (fun hc => h3 hc.2), if_neg h3]
        by_cases h4 : q < 3
        · rw [if_pos ⟨h3', h4⟩, if_pos h4]
        · rw [if_neg (fun hc => h4 hc.2), if_neg h4]

/-! ## C4: compute_surge piecewise mapping, cap, zero supply -/

/-- C4. `compute_surge` is the spec's piecewise mapping of
`ratio = demand / max(supply, 1)` rounded to two decimals; with the
default ceiling 5.0 the result never exceeds 5.0, for arbitrarily large
demand/supply; zero supply is treated exactly as supply 1. -/
theorem c4_compute_surge_piecewise (demand supply : ℕ) :
    compute_surge MAX_SURGE_MULTIPLIER demand supply
      = pyRound2 (surgeSpecTable MAX_SURGE_MULTIPLIER
          ((demand : ℚ) / ((max supply 1 : ℕ) : ℚ)))
    ∧ compute_surge MAX_SURGE_MULTIPLIER demand supply ≤ MAX_SURGE_MULTIPLIER
    ∧ compute_surge MAX_SURGE_MULTIPLIER demand 0
      = compute_surge MAX_SURGE_MULTIPLIER demand 1 := by
  refine ⟨?_, ?_, rfl⟩
  · rw [surgeSpecTable_eq_code]
    rfl
  · have hcap : ∀ y : ℚ, y ≤ 5 → pyRound2 y ≤ 5 := by
      intro y hy
      have h := pyRound2_le_intCast (c := 5) (by exact_mod_cast hy)
      exact_mod_cast h
    simp only [compute_surge, MAX_SURGE_MULTIPLIER]
    split_ifs <;> apply hcap <;> norm_num

/-! ## C5: calculate_fare -/

/-- C5 counterexample.  The claim says all three monetary outputs are
rounded half-up; at tier standard, distance 1/16 (float-exact 0.0625)
and multiplier 1 the raw base is 30.625, which the source rounds to
30.62 (Python `round` pre-rounds half-to-even before the half-up
quantize), while rounding half-up gives 30.63.  Also, with distance 0
and multiplier 2 the total is 60, not `base_fee[standard] = 30`, so "with
d = 0 the total equals base_fee[tier]" fails for multipliers above 1. -/
theorem c5_counterexample :
    (calculate_fare "standard" (1/16) 1).1 = 3062/100
    ∧ roundHalfUp2 (BASE_FEE "standard" + RATE_PER_KM "standard" * (1/16)) = 3063/100
    ∧ (calculate_fare "standard" (1/16) 1).1
        ≠ roundHalfUp2 (BASE_FEE "standard" + RATE_PER_KM "standard" * (1/16))
    ∧ (calculate_fare "standard" 0 2).2.2 = 60
    ∧ (60 : ℚ) ≠ BASE_FEE "standard" := by
  have h1 : (calculate_fare "standard" (1/16) 1).1 = 3062/100 := by
    simp only [calculate_fare, to_dec_eq_pyRound2, BASE_FEE, RATE_PER_KM]
    norm_num
    rw [pyRound2_eq_of_tie_even (n := 3062) (by norm_num) (by decide)]
    norm_num
  have h2 : roundHalfUp2 (BASE_FEE "standard" + RATE_PER_KM "standard" * (1/16)) = 3063/100 := by
    simp only [roundHalfUp2, BASE_FEE, RATE_PER_KM]
    norm_num [round_eq]
  have h4 : (calculate_fare "standard" 0 2).2.2 = 60 := by
    simp only [calculate_fare, to_dec_eq_pyRound2, BASE_FEE, RATE_PER_KM]
    norm_num
    rw [pyRound2_eq_of_int (n := 6000) (by norm_num)]
    norm_num
  refine ⟨h1, h2, ?_, h4, ?_⟩
  · rw [h1, h2]; norm_num
  · simp only [BASE_FEE]; norm_num

/-- C5 amended.  `calculate_fare` returns
`(base, surge_component, total)` with `base = base_fee + per_km · d`,
`surge_component = base · (m − 1)`, `total = base + surge_component`,
per-tier constants (30,10)/(60,15)/(80,20), unknown tiers falling back
to standard; but each output is rounded with Python `round` (half to
even) to two decimals — the subsequent half-up quantize sees an exact
two-decimal value and changes nothing.  With m = 1 the total is the
rounded `base_fee + per_km · d`; with d = 0 and m = 1 it is
`base_fee[tier]` exactly. -/
theorem c5_amended (tier : String) (d m : ℚ) (hd : 0 ≤ d) (hm : 1 ≤ m) :
    calculate_fare tier d m =
      (pyRound2 (BASE_FEE tier + RATE_PER_KM tier * d),
       pyRound2 ((BASE_FEE tier + RATE_PER_KM tier * d) * (m - 1)),
       pyRound2 ((BASE_FEE tier + RATE_PER_KM tier * d)
         + (BASE_FEE tier + RATE_PER_KM tier * d) * (m - 1)))
    ∧ BASE_FEE "standard" = 30 ∧ RATE_PER_KM "standard" = 10
    ∧ BASE_FEE "premium" = 60 ∧ RATE_PER_KM "premium" = 15
    ∧ BASE_FEE "xl" = 80 ∧ RATE_PER_KM "xl" = 20
    ∧ (tier ≠ "standard" → tier ≠ "premium" → tier ≠ "xl" →
        calculate_fare tier d m = calculate_fare "standard" d m)
    ∧ (m = 1 → (calculate_fare tier d m).2.2
        = pyRound2 (BASE_FEE tier + RATE_PER_KM tier * d))
    ∧ (d = 0 → m = 1 → (calculate_fare tier d m).2.2 = BASE_FEE tier) := by
  refine ⟨by simp [calculate_fare, to_dec_eq_pyRound2], by simp [BASE_FEE], by simp [RATE_PER_KM],
    by simp [BASE_FEE], by simp [RATE_PER_KM], by simp [BASE_FEE], by simp [RATE_PER_KM],
    ?_, ?_, ?_⟩
  · intro h1 h2 h3
    simp [calculate_fare, BASE_FEE, RATE_PER_KM, h1, h2, h3]
  · intro h
    subst h
    simp [calculate_fare, to_dec_eq_pyRound2]
  · intro h1 h2
    subst h1; subst h2
    simp only [calculate_fare, to_dec_eq_pyRound2]
    norm_num
    exact pyRound2_BASE_FEE tier

/-- C5 amended, witness at tier premium, d = 2, m = 3/2. -/
theorem c5_amended_witness :
    (0 : ℚ) ≤ 2 ∧ (1 : ℚ) ≤ 3/2 ∧
      calculate_fare "premium" 2 (3/2) =
        (pyRound2 (BASE_FEE "premium" + RATE_PER_KM "premium" * 2),
         pyRound2 ((BASE_FEE "premium" + RATE_PER_KM "premium" * 2) * (3/2 - 1)),
         pyRound2 ((BASE_FEE "premium" + RATE_PER_KM "premium" * 2)
           + (BASE_FEE "premium" + RATE_PER_KM "premium" * 2) * (3/2 - 1))) :=
  ⟨by norm_num, by norm_num, (c5_amended "premium" 2 (3/2) (by norm_num) (by norm_num)).1⟩

/-! ## C6: estimate_fare_range -/

/-- C6.  `estimate_fare_range` returns 0.9·total and 1.1·total, each
rounded to two decimals, of the `calculate_fare` total on the same
inputs, and for non-negative distance and multiplier ≥ 1 the window
always contains the total: min ≤ total ≤ max. -/
theorem c6_estimate_fare_range (tier : String) (d m : ℚ) (hd : 0 ≤ d) (hm : 1 ≤ m) :
    estimate_fare_range tier d m =
      (pyRound2 ((calculate_fare tier d m).2.2 * (9/10)),
       pyRound2 ((calculate_fare tier d m).2.2 * (11/10)))
    ∧ (estimate_fare_range tier d m).1 ≤ (calculate_fare tier d m).2.2
    ∧ (calculate_fare tier d m).2.2 ≤ (estimate_fare_range tier d m).2 := by
  set B := BASE_FEE tier + RATE_PER_KM tier * d with hB
  have hB30 : 30 ≤ B := by
    have h1 := BASE_FEE_ge_30 tier
    have h2 := RATE_PER_KM_nonneg tier
    have h3 : 0 ≤ RATE_PER_KM tier * d := mul_nonneg h2 hd
    rw [hB]; linarith
  have hraw : (30 : ℚ) ≤ B + B * (m - 1) := by nlinarith
  have ht : (calculate_fare tier d m).2.2 = pyRound2 (B + B * (m - 1)) := by
    simp [calculate_fare, to_dec_eq_pyRound2, hB]
  have ht30 : (30 : ℚ) ≤ (calculate_fare tier d m).2.2 := by
    rw [ht]
    have h := intCast_le_pyRound2 (c := 30) (x := B + B * (m - 1)) (by exact_mod_cast hraw)
    exact_mod_cast h
  refine ⟨rfl, ?_, ?_⟩
  · have h1 := pyRound2_le ((calculate_fare tier d m).2.2 * (9/10))
    have : (estimate_fare_range tier d m).1
        = pyRound2 ((calculate_fare tier d m).2.2 * (9/10)) := rfl
    rw [this]
    linarith
  · have h1 := le_pyRound2 ((calculate_fare tier d m).2.2 * (11/10))
    have : (estimate_fare_range tier d m).2
        = pyRound2 ((calculate_fare tier d m).2.2 * (11/10)) := rfl
    rw [this]
    linarith

/-- C6 witness at tier standard, d = 10, m = 1. -/
theorem c6_estimate_fare_range_witness :
    (0 : ℚ) ≤ 10 ∧ (1 : ℚ) ≤ 1 ∧
      (estimate_fare_range "standard" 10 1).1 ≤ (calculate_fare "standard" 10 1).2.2 :=
  ⟨by norm_num, le_refl 1,
    (c6_estimate_fare_range "standard" 10 1 (by norm_num) (le_refl 1)).2.1⟩

/-! ## C7: payment adapter retry policy -/

/-- C7 counterexample.  A non-positive amount does not fail immediately
with INVALID: the source's `_call_psp` raises `PSPError` for it, and
`charge` retries the full budget — 3 attempts with backoff sleeps of 2
then 4 seconds — returning status FAILED with a null provider
reference. -/
theorem c7_counterexample :
    charge 0 (fun _ => "r") = ⟨none, "FAILED", 3, [2, 4]⟩
    ∧ (charge 0 (fun _ => "r")).status ≠ "INVALID"
    ∧ (charge 0 (fun _ => "r")).attempts ≠ 1
    ∧ (charge 0 (fun _ => "r")).waits ≠ [] := by
  have h : charge 0 (fun _ => "r") = ⟨none, "FAILED", 3, [2, 4]⟩ := by
    simp [charge, chargeGo, call_psp]
  refine ⟨h, ?_, ?_, ?_⟩ <;> rw [h] <;> simp

/-- C7 amended.  `charge` makes at most 3 provider attempts with
exponential backoff 2 then 4 seconds between them; a provider success
returns SUCCESS with a non-null reference (the stub succeeds on the
first attempt for any positive amount), and exhausting all 3 attempts —
which happens exactly for non-positive amounts — returns FAILED with a
null reference, not an immediate INVALID. -/
theorem c7_amended (amount : ℚ) (refGen : ℕ → String) :
    charge amount refGen =
      (if 0 < amount then ⟨some ("PSP-" ++ refGen 1), "SUCCESS", 1, []⟩
       else ⟨none, "FAILED", 3, [2, 4]⟩)
    ∧ (charge amount refGen).attempts ≤ 3
    ∧ ((charge amount refGen).waits = [] ∨ (charge amount refGen).waits = [2, 4]) := by
  have h : charge amount refGen =
      (if 0 < amount then ⟨some ("PSP-" ++ refGen 1), "SUCCESS", 1, []⟩
       else ⟨none, "FAILED", 3, [2, 4]⟩) := by
    by_cases hpos : 0 < amount
    · simp [charge, chargeGo, call_psp, not_le.mpr hpos, hpos]
    · simp [charge, chargeGo, call_psp, not_lt.mp hpos, hpos]
  refine ⟨h, ?_, ?_⟩ <;> rw [h] <;> by_cases hpos : 0 < amount <;> simp [hpos]

/-! ## C3: geo-index membership vs driver status -/

theorem geoInsert_mem (g : List (String × List ℕ)) (tier : String) (did : ℕ) :
    did ∈ ((alookup tier (geoInsert g tier did)).getD []) := by
  unfold geoInsert
  cases h : alookup tier g with
  | none => simp [alookup_cons_self]
  | some l =>
    rw [alookup_aupdate_self, h]
    by_cases hd : did ∈ l <;> simp [hd]

/-- C3 counterexample.  A status change to offline does not remove the
driver from the geo index: after an available driver pings (indexed)
and then goes offline via `PATCH /v1/drivers/{id}/status`, it is still
a member of its tier's geo set while its status is offline — so geo
membership does not imply `status = available`.  (Moreover, with the
tier now cached, a further ping would re-insert regardless of
status.) -/
theorem c3_counterexample :
    geoMember c3db2 "standard" 4
    ∧ driverStatus c3db2 4 = some "offline"
    ∧ geoMember ((update_location c3db2 4).1) "standard" 4 := by
  refine ⟨by decide, by decide, by decide⟩

/-- C3 amended.  What the handlers actually maintain: on a tier-cache
hit a ping `GEOADD`s the driver unconditionally (no status check, and
the driver table is not consulted at all); `update_driver_status`
never touches the geo index for any status change; only the
cache-miss path declines to index a non-available driver.  Hence geo
membership does not imply availability. -/
theorem c3_amended (db : DB) (did : ℕ) (tier new_status : String) (drv : DriverRec) :
    (alookup did db.tierCache = some tier →
      geoMember ((update_location db did).1) tier did
      ∧ ((update_location db did).1).drivers = db.drivers)
    ∧ ((update_driver_status db did new_status).1).geo = db.geo
    ∧ (alookup did db.tierCache = none → alookup did db.drivers = some drv →
        drv.status ≠ "available" → ((update_location db did).1).geo = db.geo) := by
  refine ⟨?_, ?_, ?_⟩
  · intro hc
    unfold update_location
    rw [hc]
    exact ⟨geoInsert_mem db.geo tier did, rfl⟩
  · unfold update_driver_status
    split_ifs
    · cases alookup did db.drivers <;> rfl
    · rfl
  · intro hc hd hs
    unfold update_location
    rw [hc, hd]
    simp [hs]

/-- C3 amended, witness: driver 4 with tier standard cached pings and
is a geo member afterwards with the driver table untouched. -/
theorem c3_amended_witness :
    geoMember ((update_location c3db2 4).1) "standard" 4
    ∧ ((update_location c3db2 4).1).drivers = c3db2.drivers :=
  (c3_amended c3db2 4 "standard" "offline" ⟨"offline", "standard"⟩).1 (by decide)

/-! ## C1: concurrent matcher on an already-assigned ride -/

theorem assign_driver_not_requested {db : DB} {rid : ℕ} {r : RideRec}
    (hr : alookup rid db.rides = some r) (hs : r.status ≠ "REQUESTED") (did tid : ℕ) :
    assign_driver db rid did tid = (db, false) := by
  unfold assign_driver
  cases hd : alookup did db.drivers with
  | none => rfl
  | some drv =>
    by_cases hav : drv.status = "available"
    · simp [hav, hr, hs]
    · simp [hav]

theorem matchLoop_not_requested (rid tid : ℕ) {r : RideRec} (hs : r.status ≠ "REQUESTED") :
    ∀ (cands : List ℕ) (db : DB), alookup rid db.rides = some r →
      (matchLoop rid tid cands db).2 = false
      ∧ ((matchLoop rid tid cands db).1).rides
          = aupdate rid (fun x => { x with status := "CANCELLED" }) db.rides := by
  intro cands
  induction cands with
  | nil => intro db hr; exact ⟨rfl, rfl⟩
  | cons did rest ih =>
    intro db hr
    unfold matchLoop
    by_cases hl : (alookup did db.locks).isSome
    · simpa [hl] using ih db hr
    · simp only [hl, if_false, Bool.false_eq_true]
      cases hdd : alookup did db.drivers with
      | none =>
        simp only [hdd]
        exact ih _ hr
      | some drv =>
        simp only [hdd]
        by_cases hav : drv.status = "available"
        · have ha :=
            @assign_driver_not_requested { db with locks := (did, rid) :: db.locks }
              rid r hr hs did tid
          simp only [hav, if_true, ha]
          exact ih _ hr
        · simp only [hav, if_false]
          exact ih _ hr

/-- C1 counterexample.  A second matcher on ride 1 — already MATCHED —
does not abort without side effects: `_assign_driver` does observe the
ride no longer REQUESTED and writes nothing, but `run_matching` keeps
driver 7's lock (released only on exception), moves on, and on
exhaustion unconditionally rewrites the MATCHED ride to CANCELLED. -/
theorem c1_counterexample :
    rideStatus c1db0 1 = some "MATCHED"
    ∧ (run_matching c1db0 1 [7] 101).2 = false
    ∧ rideStatus ((run_matching c1db0 1 [7] 101).1) 1 = some "CANCELLED"
    ∧ alookup 7 ((run_matching c1db0 1 [7] 101).1).locks = some 1 := by
  exact ⟨by decide, by decide, by decide, by decide⟩

/-- C1 amended.  When the ride row with status REQUESTED is absent
(here: present but in any other status), `_assign_driver` indeed
returns False with no row modified; but `run_matching` does not stop:
it continues through every remaining candidate and, after exhausting
them, sets the ride to CANCELLED unconditionally — a concurrent second
matcher on the same ride therefore ends unmatched yet overwrites the
ride's status with CANCELLED (and leaves its driver locks to expire by
TTL rather than releasing them). -/
theorem c1_amended (db : DB) (rid tid : ℕ) (r : RideRec) (cands : List ℕ)
    (hr : alookup rid db.rides = some r) (hs : r.status ≠ "REQUESTED") :
    (∀ did, assign_driver db rid did tid = (db, false))
    ∧ (run_matching db rid cands tid).2 = false
    ∧ rideStatus ((run_matching db rid cands tid).1) rid = some "CANCELLED" := by
  refine ⟨fun did => assign_driver_not_requested hr hs did tid, ?_, ?_⟩
  · exact (matchLoop_not_requested rid tid hs cands db hr).1
  · have h := (matchLoop_not_requested rid tid hs cands db hr).2
    unfold run_matching rideStatus
    rw [h, alookup_aupdate_self, hr]
    rfl

/-- C1 amended, witness at the concrete two-driver state. -/
theorem c1_amended_witness :
    assign_driver c1db0 1 7 101 = (c1db0, false)
    ∧ (run_matching c1db0 1 [7] 101).2 = false
    ∧ rideStatus ((run_matching c1db0 1 [7] 101).1) 1 = some "CANCELLED" := by
  have h := c1_amended c1db0 1 101 ⟨9, "standard", "MATCHED", some 5, 1, "card"⟩ [7]
    (by decide) (by decide)
  exact ⟨h.1 7, h.2.1, h.2.2⟩

theorem findTripByRide_isSome {trips : List (ℕ × TripRec)} {tid : ℕ} {t : TripRec}
    (h : alookup tid trips = some t) : (findTripByRide trips t.ride_id).isSome := by
  induction trips with
  | nil => simp [alookup] at h
  | cons hd tl ih =>
    obtain ⟨k, v⟩ := hd
    unfold findTripByRide
    by_cases hv : v.ride_id = t.ride_id
    · simp [hv]
    · simp only [hv, if_false]
      unfold alookup at h
      by_cases hk : tid = k
      · rw [if_pos hk] at h
        injection h with h
        subst h
        exact absurd rfl hv
      · rw [if_neg hk] at h
        exact ih h

/-- C2 counterexample.  `end_trip` never reads the ride's status: on a
ride still in MATCHED (trip ACTIVE, driver never accepted) it sets the
ride directly to PAYMENT_PENDING, and MATCHED → PAYMENT_PENDING is not
an edge of the §4.6 graph.  (Indeed the code's own happy path goes
DRIVER_EN_ROUTE → PAYMENT_PENDING, also not an edge; the ride states
TRIP_STARTED, TRIP_PAUSED, TRIP_ENDED are never written at all.) -/
theorem c2_counterexample :
    rideStatus c2db0 1 = some "MATCHED"
    ∧ rideStatus ((end_trip c2db0 100 2 50).1) 1 = some "PAYMENT_PENDING"
    ∧ ¬ specEdge "MATCHED" "PAYMENT_PENDING"
    ∧ ¬ specEdge "DRIVER_EN_ROUTE" "PAYMENT_PENDING" := by
  refine ⟨by decide, ?_, by decide, by decide⟩
  simp [end_trip, c2db0, rideStatus, alookup, aupdate]

/-- C2 amended.  The guarded operations do fail with CONFLICT (409) and
no effect from a wrong state: `end_trip` when the trip is neither
ACTIVE nor PAUSED, `accept_ride` unless the ride is MATCHED and
assigned to the acting driver.  But the graph itself is not enforced:
a permitted `end_trip` sets the ride to PAYMENT_PENDING whatever its
current status (checking only the trip), the matcher's cancellation
writes CANCELLED from any state whatever, and an accepted ride moves
MATCHED → DRIVER_EN_ROUTE. -/
theorem c2_amended (db : DB) (tid pid : ℕ) (t : TripRec) (r : RideRec) (dist : ℚ)
    (ht : alookup tid db.trips = some t)
    (hr : alookup t.ride_id db.rides = some r) :
    (t.status ≠ "ACTIVE" → t.status ≠ "PAUSED" →
      end_trip db tid dist pid = (db, .error 409))
    ∧ (t.status = "ACTIVE" ∨ t.status = "PAUSED" →
      rideStatus ((end_trip db tid dist pid).1) t.ride_id = some "PAYMENT_PENDING")
    ∧ rideStatus (cancel_ride db t.ride_id) t.ride_id = some "CANCELLED"
    ∧ (∀ did, ¬(r.driver_id = some did ∧ r.status = "MATCHED") →
      accept_ride db did t.ride_id = (db, .error 409))
    ∧ (∀ did, r.driver_id = some did → r.status = "MATCHED" →
      rideStatus ((accept_ride db did t.ride_id).1) t.ride_id = some "DRIVER_EN_ROUTE") := by
  refine ⟨?_, ?_, ?_, ?_, ?_⟩
  · intro h1 h2
    unfold end_trip
    simp only [ht]
    rw [if_neg (fun hc => hc.elim h1 h2)]
  · intro hc
    unfold end_trip
    simp only [ht]
    rw [if_pos hc]
    simp only [hr]
    unfold rideStatus
    rw [alookup_aupdate_self, hr]
    rfl
  · unfold cancel_ride rideStatus
    rw [alookup_aupdate_self, hr]
    rfl
  · intro did hguard
    unfold accept_ride
    simp only [hr]
    rw [if_neg hguard]
  · intro did hdid hst
    unfold accept_ride
    simp only [hr]
    rw [if_pos ⟨hdid, hst⟩]
    cases hft : findTripByRide db.trips t.ride_id with
    | none =>
      have := findTripByRide_isSome ht
      rw [hft] at this
      simp at this
    | some pr =>
      unfold rideStatus
      rw [alookup_aupdate_self, hr]
      rfl

/-- C2 amended, witness at the concrete matched-ride state. -/
theorem c2_amended_witness :
    rideStatus ((end_trip c2db0 100 2 50).1) 1 = some "PAYMENT_PENDING"
    ∧ rideStatus (cancel_ride c2db0 1) 1 = some "CANCELLED"
    ∧ rideStatus ((accept_ride c2db0 5 1).1) 1 = some "DRIVER_EN_ROUTE" := by
  have h := c2_amended c2db0 100 50 ⟨1, 5, 9, "ACTIVE", none, none, none, none⟩
    ⟨9, "standard", "MATCHED", some 5, 1, "card"⟩ 2 (by decide) (by decide)
  exact ⟨h.2.1 (Or.inl rfl), h.2.2.1, h.2.2.2.2 5 rfl rfl⟩

/-- C9.  Ride creation increments `surge:demand:standard` from 0 to 1
exactly once; but neither a successful match (ride 1 → driver 3) nor a
no-candidate cancellation decrements it — the counter stays at 1, not
returning to 0, because `decrement_demand` has no caller.  (The unused
`decrement_demand` itself would never go below zero.) -/
theorem c9_demand_never_decremented :
    demandOf c9db0 "standard" = 0
    ∧ demandOf c9db1 "standard" = 1
    ∧ (run_matching c9db1 1 [3] 100).2 = true
    ∧ demandOf (run_matching c9db1 1 [3] 100).1 "standard" = 1
    ∧ rideStatus (run_matching c9db1 1 [] 100).1 1 = some "CANCELLED"
    ∧ demandOf (run_matching c9db1 1 [] 100).1 "standard" = 1
    ∧ decrement_demand [("standard", 0)] "standard" = [("standard", 0)]
    ∧ decrement_demand [] "standard" = [] := by
  have hdb1 : c9db1 = { c9db0 with
      rides := [(1, ⟨1, "standard", "REQUESTED", none,
        compute_surge MAX_SURGE_MULTIPLIER 0 1, "card"⟩)],
      demand := [("standard", 1)] } := by
    simp [c9db1, create_ride, idemHit, c9db0, demandOf, supplyOf, alookup, increment_demand]
  refine ⟨by decide, ?_, ?_, ?_, ?_, ?_, by decide, by decide⟩
  · rw [hdb1]; rfl
  · rw [hdb1]
    simp [run_matching, matchLoop, assign_driver, alookup, aupdate, c9db0]
  · rw [hdb1]
    simp [run_matching, matchLoop, assign_driver, alookup, aupdate, c9db0, demandOf]
  · rw [hdb1]
    simp [run_matching, matchLoop, cancel_ride, alookup, aupdate, c9db0, rideStatus]
  · rw [hdb1]
    simp [run_matching, matchLoop, cancel_ride, alookup, aupdate, c9db0, demandOf]

/-! ## C8: payment flow guards -/

/-- C8.  In `POST /v1/payments` (trip resolved and COMPLETED, its
payment row resolved, no idempotency replay): an already-SUCCESS
payment returns the prior result with the database unchanged and no
provider call; an amount differing from the server-side total by more
than 0.01 fails with 400/INVALID, no provider call, nothing written;
otherwise the provider is charged once with the server amount, the
payment row takes the charge's status and reference, and the ride
moves to COMPLETED on success and PAYMENT_FAILED on failure. -/
theorem c8_payment_flow (db : DB) (tid : ℕ) (amount : ℚ) (key : Option String)
    (refGen : ℕ → String) (t : TripRec) (pid : ℕ) (p : PaymentRec) (tf : ℚ) (r : RideRec)
    (hhit : idemHit db key = none)
    (ht : alookup tid db.trips = some t)
    (hc : t.status = "COMPLETED")
    (hp : findPayment db.payments tid = some (pid, p))
    (halp : alookup pid db.payments = some p)
    (hf : t.total_fare = some tf)
    (hr : alookup t.ride_id db.rides = some r) :
    (p.status = "SUCCESS" →
      create_payment db tid amount key refGen
        = (db, .ok ⟨200, Body.payBody pid p.status p.psp_ref p.amount p.currency, false⟩,
           none))
    ∧ (p.status ≠ "SUCCESS" → 1/100 < |amount - tf| →
      create_payment db tid amount key refGen = (db, .error 400, none))
    ∧ (p.status ≠ "SUCCESS" → ¬(1/100 < |amount - tf|) →
      (create_payment db tid amount key refGen).2.2 = some (charge tf refGen)
      ∧ alookup pid ((create_payment db tid amount key refGen).1).payments
          = some ⟨p.trip_id, p.rider_id, p.amount, p.currency,
                  (charge tf refGen).status, (charge tf refGen).psp_ref, key⟩
      ∧ rideStatus ((create_payment db tid amount key refGen).1) t.ride_id
          = some (if (charge tf refGen).status = "SUCCESS" then "COMPLETED"
                  else "PAYMENT_FAILED")) := by
  refine ⟨?_, ?_, ?_⟩
  · intro hps
    unfold create_payment
    simp only [hhit, ht]
    rw [if_pos hc]
    simp only [hp]
    rw [if_pos hps]
  · intro hps hlt
    unfold create_payment
    simp only [hhit, ht]
    rw [if_pos hc]
    simp only [hp]
    rw [if_neg hps]
    simp only [hf]
    rw [if_pos hlt]
  · intro hps hlt
    unfold create_payment
    simp only [hhit, ht]
    rw [if_pos hc]
    simp only [hp]
    rw [if_neg hps]
    simp only [hf]
    rw [if_neg hlt]
    refine ⟨by cases key <;> rfl, ?_, ?_⟩
    · cases key <;> simp [hr, alookup_aupdate_self, halp]
    · cases key <;> (unfold rideStatus) <;> simp [hr, alookup_aupdate_self, halp]

/-- C8 witness: paying the exact server amount charges once, stores
the SUCCESS reference, and completes the ride. -/
theorem c8_payment_flow_witness :
    (create_payment c8db0 100 50 none (fun _ => "w")).2.2 = some (charge 50 (fun _ => "w"))
    ∧ alookup 200 ((create_payment c8db0 100 50 none (fun _ => "w")).1).payments
        = some ⟨100, 9, 50, "INR", (charge 50 (fun _ => "w")).status,
                (charge 50 (fun _ => "w")).psp_ref, none⟩
    ∧ rideStatus ((create_payment c8db0 100 50 none (fun _ => "w")).1) 1
        = some (if (charge 50 (fun _ => "w")).status = "SUCCESS" then "COMPLETED"
                else "PAYMENT_FAILED") := by
  have h := (c8_payment_flow c8db0 100 50 none (fun _ => "w")
    ⟨1, 5, 9, "COMPLETED", some 2, some 50, some 0, some 50⟩ 200
    ⟨100, 9, 50, "INR", "PENDING", none, none⟩ 50
    ⟨9, "standard", "PAYMENT_PENDING", some 5, 1, "card"⟩
    rfl (by decide) rfl (by decide) (by decide) rfl (by decide)).2.2
    (by decide) (by norm_num)
  exact h

theorem create_ride_fresh_shape (db : DB) (rider : ℕ) (tier pm : String) (dist : ℚ)
    (k : String) (newId : ℕ) (h : alookup k db.idem = none) :
    create_ride db rider tier pm dist (some k) newId
      = ({ db with
            rides := (newId, ⟨rider, tier, "REQUESTED", none, rideSurge db tier, pm⟩)
              :: db.rides,
            demand := increment_demand db.demand tier,
            idem := (k, (201, rideBodyOf db tier dist newId)) :: db.idem },
         ⟨201, rideBodyOf db tier dist newId, false⟩, true) := by
  simp [create_ride, idemHit, h, rideSurge, rideBodyOf]

/-- C10.  A request carrying a stored idempotency token gets the stored
response back — same status code, same (structurally identical) body —
flagged with the replay header, with the database unchanged: no ride
row, no payment write, no demand increment, no matching task, no
provider call.  And replaying a fresh ride-create with the same key is
idempotent: the first call inserts exactly one ride row and stores its
201 response; the second call returns that body as a replay and
changes nothing. -/
theorem c10_idempotent_replay (db : DB) (k : String) (code : ℕ) (body : Body)
    (rider tid newId rider2 newId2 : ℕ) (tier pm tier2 pm2 : String)
    (dist dist2 amount : ℚ) (refGen : ℕ → String) :
    (alookup k db.idem = some (code, body) →
      create_ride db rider tier pm dist (some k) newId = (db, ⟨code, body, true⟩, false)
      ∧ create_payment db tid amount (some k) refGen = (db, .ok ⟨code, body, true⟩, none))
    ∧ (alookup k db.idem = none →
      (create_ride db rider tier pm dist (some k) newId).2.1.status_code = 201
      ∧ ((create_ride db rider tier pm dist (some k) newId).1).rides.length
          = db.rides.length + 1
      ∧ create_ride ((create_ride db rider tier pm dist (some k) newId).1)
            rider2 tier2 pm2 dist2 (some k) newId2
          = ((create_ride db rider tier pm dist (some k) newId).1,
             ⟨201, (create_ride db rider tier pm dist (some k) newId).2.1.body, true⟩,
             false)) := by
  constructor
  · intro h
    constructor
    · unfold create_ride
      simp only [idemHit, h]
    · unfold create_payment
      simp only [idemHit, h]
  · intro h
    have hs := create_ride_fresh_shape db rider tier pm dist k newId h
    rw [hs]
    refine ⟨rfl, by simp, ?_⟩
    rw [create_ride]
    simp only [idemHit, alookup_cons_self]

/-- C10 witness: both routers replay the stored response for key K
verbatim with the replay flag and leave the state untouched. -/
theorem c10_idempotent_replay_witness :
    create_ride c10db0 2 "standard" "card" 10 (some "K") 7
      = (c10db0, ⟨201, Body.rideBody 1 "REQUESTED" 1 117 143 "INR", true⟩, false)
    ∧ create_payment c10db0 100 50 (some "K") (fun _ => "w")
      = (c10db0, .ok ⟨201, Body.rideBody 1 "REQUESTED" 1 117 143 "INR", true⟩, none) :=
  c10_idempotent_replay c10db0 "K" 201 (Body.rideBody 1 "REQUESTED" 1 117 143 "INR")
    2 100 7 0 0 "standard" "card" "" "" 10 0 50 (fun _ => "w") |>.1 (by decide)

end RideHailing
